import Mathlib

/-!
Shallow embedding of the resumable marking pipeline state store and
failure classification engine (logger.py, error_summary.py,
quota_detector.py), with theorems checking the specification claims.
-/

set_option maxRecDepth 4000

/-! ### Case-insensitive substring matching, as used by the classifier -/

/-- Tests whether `pat` occurs at the start of `text` (character lists). -/
def startsWith : List Char → List Char → Bool
  | [], _ => true
  | _ :: _, [] => false
  | p :: ps, t :: ts => p == t && startsWith ps ts

/-- Tests whether `pat` occurs anywhere inside `text` (character lists). -/
def containsSub (text pat : List Char) : Bool :=
  if startsWith pat text then true
  else
    match text with
    | [] => false
    | _ :: rest => containsSub rest pat

/-- Lower-cases a string to a character list, mirroring `.lower()` on the
ASCII vocabulary the patterns use. -/
def lowerStr (s : String) : List Char :=
  s.toList.map Char.toLower

/-- Mirrors the Python test `pat in text.lower()` (the pattern literals in the
source are already lower case). -/
def strHas (text pat : String) : Bool :=
  containsSub (lowerStr text) pat.toList

/-- Mirrors the case-sensitive Python test `pat in text`. -/
def strHasRaw (text pat : String) : Bool :=
  containsSub text.toList pat.toList

/-- Mirrors `any(p in text_lower for p in pats)`. -/
def matchesAny (text : String) (pats : List String) : Bool :=
  pats.any (fun p => strHas text p)

/-! ### Failure classifier pattern lists (error_summary.find_failed_tasks) -/

def classifierQuotaPatterns : List String :=
  ["exhausted your capacity", "quota", "rate limit", "too many requests",
   "limit reached", "usage limit"]

def timeoutPatterns : List String := ["timeout", "timed out"]

def networkPatterns : List String := ["connection", "network", "socket"]

def permissionPatterns : List String := ["permission", "access denied"]

/-- The failure taxonomy assigned by `find_failed_tasks`. -/
inductive ErrorType where
  | quotaRateLimit
  | timeout
  | network
  | permission
  | llmFailure
  | other
  | incomplete
  deriving DecidableEq, Repr

/-- Per-task failure decision of `find_failed_tasks` (error_summary.py,
lines 56-115): given the stripped stderr and stdout contents of one task
directory, returns the assigned error type, or `none` when the task is not
counted as failed. -/
def classifyTask (stderrC stdoutC : String) : Option ErrorType :=
  if stderrC ≠ "" then
    if matchesAny stderrC classifierQuotaPatterns then some .quotaRateLimit
    else if matchesAny stderrC timeoutPatterns then some .timeout
    else if matchesAny stderrC networkPatterns then some .network
    else if matchesAny stderrC permissionPatterns then some .permission
    else if strHas stderrC "failed" || strHas stderrC "error" then some .llmFailure
    else if strHas stderrC "yolo mode" && !(strHas stderrC "failed")
              && !(strHas stderrC "error") then none
    else some .other
  else if stdoutC ≠ "" then
    if strHasRaw stdoutC "Creating final feedback" && !(strHasRaw stdoutC "✓") then
      some .incomplete
    else if strHasRaw stdoutC "Marking student" && !(strHasRaw stdoutC "✓") then
      some .incomplete
    else none
  else none

/-! ### Quota detector (quota_detector.is_quota_error) -/

def commonQuotaPatterns : List String :=
  ["rate limit", "quota exceeded", "usage limit", "limit reached",
   "too many requests", "quota has been exceeded", "rate_limit_exceeded",
   "resource_exhausted"]

def codexQuotaPatterns : List String :=
  ["5-hour limit reached", "resets 3am", "/upgrade to max", "/extra-usage",
   "daily limit", "usage cap"]

def claudeQuotaPatterns : List String :=
  ["rate limit exceeded", "usage limits", "maximum requests",
   "quota exceeded", "overloaded_error"]

def geminiQuotaPatterns : List String :=
  ["quota exceeded", "rate limit", "resource exhausted", "quota_exceeded",
   "rate_limit_error"]

def providerQuotaPatterns (provider : String) : List String :=
  if provider == "codex" then codexQuotaPatterns
  else if provider == "claude" then claudeQuotaPatterns
  else if provider == "gemini" then geminiQuotaPatterns
  else []

/-- Mirrors `is_quota_error(error_output, provider)` from quota_detector.py:
checks the common patterns, then the patterns of the given provider. -/
def is_quota_error (errorOutput provider : String) : Bool :=
  matchesAny errorOutput commonQuotaPatterns
    || matchesAny errorOutput (providerQuotaPatterns provider)

/-! ### SHA-256 (hashlib.sha256) over byte lists, words as Nat mod 2^32 -/

/-- Structural worker for `chunksOf`: `fuel` bounds the recursion depth and is
instantiated with the length of the list. -/
def chunksOfAux (n : Nat) : Nat → List α → List (List α)
  | _, [] => []
  | 0, _ :: _ => []
  | fuel + 1, x :: xs =>
    (x :: xs).take n :: chunksOfAux n fuel ((x :: xs).drop n)

/-- Splits a list into consecutive chunks of size `n` (the last chunk may be
shorter), as the successive `f.read(n)` calls in `compute_checksum` do. -/
def chunksOf (n : Nat) (l : List α) : List (List α) :=
  chunksOfAux n l.length l

def w32 (x : Nat) : Nat := x % 4294967296

def rotr32 (n x : Nat) : Nat := w32 ((x >>> n) ||| (x <<< (32 - n)))

def sigB0 (x : Nat) : Nat := rotr32 2 x ^^^ rotr32 13 x ^^^ rotr32 22 x

def sigB1 (x : Nat) : Nat := rotr32 6 x ^^^ rotr32 11 x ^^^ rotr32 25 x

def sigS0 (x : Nat) : Nat := rotr32 7 x ^^^ rotr32 18 x ^^^ (x >>> 3)

def sigS1 (x : Nat) : Nat := rotr32 17 x ^^^ rotr32 19 x ^^^ (x >>> 10)

def chF (x y z : Nat) : Nat := (x &&& y) ^^^ ((x ^^^ 4294967295) &&& z)

def majF (x y z : Nat) : Nat := (x &&& y) ^^^ (x &&& z) ^^^ (y &&& z)

/-- The 64 SHA-256 round constants, in decimal. -/
def sha256K : List Nat :=
  [1116352408, 1899447441, 3049323471, 3921009573, 961987163,
   1508970993, 2453635748, 2870763221, 3624381080, 310598401,
   607225278, 1426881987, 1925078388, 2162078206, 2614888103,
   3248222580, 3835390401, 4022224774, 264347078, 604807628,
   770255983, 1249150122, 1555081692, 1996064986, 2554220882,
   2821834349, 2952996808, 3210313671, 3336571891, 3584528711,
   113926993, 338241895, 666307205, 773529912, 1294757372,
   1396182291, 1695183700, 1986661051, 2177026350, 2456956037,
   2730485921, 2820302411, 3259730800, 3345764771, 3516065817,
   3600352804, 4094571909, 275423344, 430227734, 506948616,
   659060556, 883997877, 958139571, 1322822218, 1537002063,
   1747873779, 1955562222, 2024104815, 2227730452, 2361852424,
   2428436474, 2756734187, 3204031479, 3329325298]

/-- The eight SHA-256 initial hash words, in decimal. -/
def sha256H0 : List Nat :=
  [1779033703, 3144134277, 1013904242, 2773480762,
   1359893119, 2600822924, 528734635, 1541459225]

/-- Big-endian bytes of `n`, `len` bytes wide. -/
def natToBytesBE (len n : Nat) : List Nat :=
  (List.range len).map (fun i => (n >>> (8 * (len - 1 - i))) % 256)

def word4 : List Nat → Nat
  | [a, b, c, d] => ((a * 256 + b) * 256 + c) * 256 + d
  | _ => 0

def wordsOfBlock (block : List Nat) : List Nat :=
  (chunksOf 4 block).map word4

/-- Appends the next word of the SHA-256 message schedule. -/
def scheduleStep (ws : List Nat) : List Nat :=
  let n := ws.length
  ws ++ [w32 (sigS1 (ws.getD (n - 2) 0) + ws.getD (n - 7) 0
              + sigS0 (ws.getD (n - 15) 0) + ws.getD (n - 16) 0)]

def extendWords : Nat → List Nat → List Nat
  | 0, ws => ws
  | n + 1, ws => extendWords n (scheduleStep ws)

def buildSchedule (ws : List Nat) : List Nat := extendWords 48 ws

/-- One SHA-256 compression round on the eight working words. -/
def sha256Round (st : List Nat) (kw : Nat × Nat) : List Nat :=
  match st with
  | [a, b, c, d, e, f, g, h] =>
    let t1 := w32 (h + sigB1 e + chF e f g + kw.1 + kw.2)
    let t2 := w32 (sigB0 a + majF a b c)
    [w32 (t1 + t2), a, b, c, w32 (d + t1), e, f, g]
  | st => st

def sha256Compress (h : List Nat) (block : List Nat) : List Nat :=
  let ws := buildSchedule (wordsOfBlock block)
  let st := (sha256K.zip ws).foldl sha256Round h
  List.zipWith (fun x y => w32 (x + y)) h st

/-- SHA-256 padding: append 0x80, zero bytes to reach 56 mod 64, then the
bit length as eight big-endian bytes. -/
def padBytes (msg : List Nat) : List Nat :=
  let l := msg.length
  let zeros := (119 - l % 64) % 64
  msg ++ [128] ++ List.replicate zeros 0 ++ natToBytesBE 8 (8 * l)

/-- SHA-256 digest (32 bytes) of a byte list. -/
def sha256Bytes (msg : List Nat) : List Nat :=
  ((chunksOf 64 (padBytes msg)).foldl sha256Compress sha256H0).foldr
    (fun wrd acc => natToBytesBE 4 wrd ++ acc) []

def hexDigit (n : Nat) : Char :=
  if n < 10 then Char.ofNat (48 + n) else Char.ofNat (87 + n)

/-- Lower-case hex string of a byte list (`.hexdigest()`). -/
def hexDigest (bytes : List Nat) : String :=
  String.mk (bytes.foldr (fun b acc => hexDigit (b / 16) :: hexDigit (b % 16) :: acc) [])

/-- `compute_checksum` on the content of a readable file: the bytes are read
in 4096-byte chunks, each fed to the running hash, and the hex digest is
returned (logger.py, lines 102-112, success path). -/
def computeChecksumBytes (content : List Nat) : String :=
  hexDigest (sha256Bytes ((chunksOf 4096 content).flatten))

/-- `compute_checksum(file_path)` over an explicit file system `fs` mapping a
path to its byte content, or `none` when unreadable: any read failure is
caught and yields the empty string (logger.py, lines 102-112). -/
def computeChecksumFs (fs : String → Option (List Nat)) (path : String) : String :=
  match fs path with
  | some content => computeChecksumBytes content
  | none => ""

/-! ### State store (MarkerLogger state handling, logger.py) -/

/-- JSON values as written and read by `json.dump` / `json.load` for the
state file (only the shapes the state uses). -/
inductive Json where
  | null
  | str (s : String)
  | arr (xs : List Json)
  | obj (fields : List (String × Json))

/-- One entry of the `checksums` map (logger.py, lines 118-122). -/
structure ChecksumRecord where
  path : String
  checksum : String
  recorded_at : String
  deriving DecidableEq, Repr

/-- The persisted run state dictionary: the keys created by `_load_state`
(lines 85-91) plus the keys later operations may add (`updated_at` in
`save_state`, `completed_at` in `mark_stage_complete`). -/
structure RunState where
  started_at : String
  completed_activities : List String
  completed_students : List String
  checksums : List (String × ChecksumRecord)
  last_stage : Option String
  updated_at : Option String
  completed_at : Option String
  deriving DecidableEq, Repr

/-- The fresh state built when no state file exists or it cannot be parsed
(logger.py, lines 85-91). -/
def freshState (now : String) : RunState :=
  { started_at := now
    completed_activities := []
    completed_students := []
    checksums := []
    last_stage := none
    updated_at := none
    completed_at := none }

def encodeChecksumRecord (r : ChecksumRecord) : Json :=
  .obj [("path", .str r.path), ("checksum", .str r.checksum),
        ("recorded_at", .str r.recorded_at)]

/-- JSON serialization of the state as `json.dump(self.state, f)` writes it
(optional keys are present only once set). -/
def encodeState (s : RunState) : Json :=
  .obj (
    [("started_at", .str s.started_at),
     ("completed_activities", .arr (s.completed_activities.map .str)),
     ("completed_students", .arr (s.completed_students.map .str)),
     ("checksums", .obj (s.checksums.map (fun p => (p.1, encodeChecksumRecord p.2)))),
     ("last_stage", match s.last_stage with | none => .null | some v => .str v)]
    ++ (match s.completed_at with | none => [] | some t => [("completed_at", Json.str t)])
    ++ (match s.updated_at with | none => [] | some t => [("updated_at", Json.str t)]))

def lookupField : List (String × Json) → String → Option Json
  | [], _ => none
  | (k2, v) :: rest, k => if k2 == k then some v else lookupField rest k

def strListOf : List Json → Option (List String)
  | [] => some []
  | .str s :: rest =>
    match strListOf rest with
    | some l => some (s :: l)
    | none => none
  | _ :: _ => none

def asStrList : Json → Option (List String)
  | .arr xs => strListOf xs
  | _ => none

def decodeChecksumRecord : Json → Option ChecksumRecord
  | .obj fields =>
    match lookupField fields "path", lookupField fields "checksum",
          lookupField fields "recorded_at" with
    | some (.str p), some (.str c), some (.str t) => some ⟨p, c, t⟩
    | _, _, _ => none
  | _ => none

def recListOf : List (String × Json) → Option (List (String × ChecksumRecord))
  | [] => some []
  | (k, v) :: rest =>
    match decodeChecksumRecord v, recListOf rest with
    | some r, some l => some ((k, r) :: l)
    | _, _ => none

def decodeChecksums : Json → Option (List (String × ChecksumRecord))
  | .obj fields => recListOf fields
  | _ => none

def decodeNullableStr : Json → Option (Option String)
  | .null => some none
  | .str s => some (some s)
  | _ => none

def decodeOptField (fields : List (String × Json)) (k : String) : Option (Option String) :=
  match lookupField fields k with
  | none => some none
  | some (.str s) => some (some s)
  | some _ => none

/-- Reads a parsed state-file JSON value back into the state shape the code
relies on (`state["completed_students"]` and friends). -/
def decodeState (j : Json) : Option RunState :=
  match j with
  | .obj fields =>
    match lookupField fields "started_at", lookupField fields "completed_activities",
          lookupField fields "completed_students", lookupField fields "checksums",
          lookupField fields "last_stage" with
    | some (.str sa), some ca, some cs, some ck, some ls =>
      match asStrList ca, asStrList cs, decodeChecksums ck, decodeNullableStr ls with
      | some cal, some csl, some ckl, some lso =>
        match decodeOptField fields "updated_at", decodeOptField fields "completed_at" with
        | some ua, some co => some ⟨sa, cal, csl, ckl, lso, ua, co⟩
        | _, _ => none
      | _, _, _, _ => none
    | _, _, _, _, _ => none
  | _ => none

/-- `_load_state` (logger.py, lines 76-91): the state file content is
`none` when the file is absent; an unreadable value falls back to the fresh
state. -/
def loadState (now : String) (file : Option Json) : RunState :=
  match file with
  | some j => (decodeState j).getD (freshState now)
  | none => freshState now

/-- `save_state` (logger.py, lines 93-100): sets `updated_at` and writes the
serialized state; returns the updated in-memory state and the file content
written. -/
def save_state (now : String) (s : RunState) : RunState × Json :=
  let s1 := { s with updated_at := some now }
  (s1, encodeState s1)

/-- The membership key built by `mark_student_complete` and
`is_student_complete` (logger.py, lines 213 and 224). -/
def studentKey (student : String) (activity : Option String) : String :=
  match activity with
  | some a => student ++ ":" ++ a
  | none => student

/-- `mark_activity_complete` (logger.py, lines 205-209): set-insert into
`completed_activities` followed by `save_state`; a no-op when already
present. The pair is (in-memory state, state file content). -/
def mark_activity_complete (now activity : String)
    (s : RunState) (file : Option Json) : RunState × Option Json :=
  if activity ∈ s.completed_activities then (s, file)
  else
    let q := save_state now
      { s with completed_activities := s.completed_activities ++ [activity] }
    (q.1, some q.2)

/-- `mark_student_complete` (logger.py, lines 211-216). -/
def mark_student_complete (now student : String) (activity : Option String)
    (s : RunState) (file : Option Json) : RunState × Option Json :=
  let key := studentKey student activity
  if key ∈ s.completed_students then (s, file)
  else
    let q := save_state now
      { s with completed_students := s.completed_students ++ [key] }
    (q.1, some q.2)

/-- `mark_stage_complete` (logger.py, lines 198-203). -/
def mark_stage_complete (now stage : String)
    (s : RunState) : RunState × Option Json :=
  let q := save_state now { s with last_stage := some stage, completed_at := some now }
  (q.1, some q.2)

/-- `is_activity_complete` (logger.py, lines 218-220). -/
def is_activity_complete (activity : String) (s : RunState) : Bool :=
  s.completed_activities.contains activity

/-- `is_student_complete` (logger.py, lines 222-225). -/
def is_student_complete (student : String) (activity : Option String)
    (s : RunState) : Bool :=
  s.completed_students.contains (studentKey student activity)

/-- Python dict assignment `self.state["checksums"][label] = record`:
replaces the entry when the key exists, appends it otherwise. -/
def setChecksum (m : List (String × ChecksumRecord)) (label : String)
    (r : ChecksumRecord) : List (String × ChecksumRecord) :=
  if m.any (fun p => p.1 == label) then
    m.map (fun p => if p.1 == label then (label, r) else p)
  else m ++ [(label, r)]

/-- `record_file_checksum` (logger.py, lines 114-123): computes the checksum
of the file at `path` in the file system `fs`; only a non-empty result is
recorded and saved. -/
def record_file_checksum (now : String) (fs : String → Option (List Nat))
    (path label : String) (s : RunState) (file : Option Json) :
    RunState × Option Json :=
  let checksum := computeChecksumFs fs path
  if checksum ≠ "" then
    let q := save_state now
      { s with checksums := setChecksum s.checksums label ⟨path, checksum, now⟩ }
    (q.1, some q.2)
  else (s, file)

/-- The state-store operations named by the specification invariant. -/
inductive StoreOp where
  | markStage (stage : String)
  | markActivity (activity : String)
  | markStudent (student : String) (activity : Option String)
  | recordChecksum (path label : String)
  | save

/-- Runs one state-store operation on (in-memory state, state file). -/
def applyOp (now : String) (fs : String → Option (List Nat)) (op : StoreOp)
    (st : RunState × Option Json) : RunState × Option Json :=
  match op with
  | .markStage stage => mark_stage_complete now stage st.1
  | .markActivity a => mark_activity_complete now a st.1 st.2
  | .markStudent stu act => mark_student_complete now stu act st.1 st.2
  | .recordChecksum path label => record_file_checksum now fs path label st.1 st.2
  | .save =>
    let q := save_state now st.1
    (q.1, some q.2)

/-- Runs a sequence of state-store operations. -/
def runOps (now : String) (fs : String → Option (List Nat)) (ops : List StoreOp)
    (st : RunState × Option Json) : RunState × Option Json :=
  ops.foldl (fun acc op => applyOp now fs op acc) st

/-! ### File-level trace of `save_state` (for the atomicity claim) -/

/-- A file-system operation performed while persisting state. -/
inductive FsOp where
  | write (path : String) (content : Json)
  | rename (src dst : String)

/-- The path `save_state` writes to (`self.state_file`). -/
def stateFilePath : String := "state.json"

/-- The sequence of file-system operations `save_state` performs
(logger.py, lines 93-100): a single `open(self.state_file, "w")` plus
`json.dump`, i.e. one direct write of the serialized state to the final
path. -/
def saveStateOps (now : String) (s : RunState) : List FsOp :=
  [FsOp.write stateFilePath (save_state now s).2]

/-! ### Report generator exit signalling (error_summary.main) -/

/-- One scanned task failure (error_summary.py, lines 121-127). -/
structure TaskFailure where
  task_dir : String
  student_name : String
  error_type : ErrorType
  error_message : String
  stdout_snippet : String

/-- One missing expected output (error_summary.py, lines 173-177). -/
structure MissingOutput where
  student_name : String
  expected_file : String
  submission_path : String

/-- The exit code of `error_summary.main` (lines 328-383) as a function of
whether the logs directory exists and of the computed failure and
missing-output lists: a missing logs directory exits 1 early; otherwise the
process exits 1 exactly when either list is non-empty (Python list
truthiness), and 0 otherwise. -/
def mainExitCode (logsDirExists : Bool) (failures : List TaskFailure)
    (missing : List MissingOutput) : Nat :=
  if !logsDirExists then 1
  else if !failures.isEmpty || !missing.isEmpty then 1
  else 0

/-- The approval-mode informational banner phrases the classifier treats as
noise when extracting an `llm_failure` message (error_summary.py,
lines 93-94). -/
def approvalBannerPhrases : List String :=
  ["yolo mode", "automatically approved"]

/-- The patterns present both in the classifier quota branch
(error_summary.py, line 70) and in the common patterns of `is_quota_error`
(quota_detector.py, lines 28-37). -/
def sharedQuotaPatterns : List String :=
  ["rate limit", "too many requests", "limit reached", "usage limit"]

/-! ### Helper lemmas -/

theorem chunksOfAux_flatten {α : Type} (n : Nat) (hn : 0 < n) :
    ∀ (fuel : Nat) (l : List α), l.length ≤ fuel →
      (chunksOfAux n fuel l).flatten = l := by
  intro fuel
  induction fuel with
  | zero =>
    intro l hl
    cases l with
    | nil => rfl
    | cons x xs => simp at hl
  | succ m ih =>
    intro l hl
    cases l with
    | nil => rfl
    | cons x xs =>
      simp only [chunksOfAux, List.flatten_cons]
      rw [ih]
      · exact List.take_append_drop n (x :: xs)
      · simp only [List.length_drop, List.length_cons]
        simp only [List.length_cons] at hl
        omega

theorem chunksOf_flatten {α : Type} (n : Nat) (hn : 0 < n) (l : List α) :
    (chunksOf n l).flatten = l :=
  chunksOfAux_flatten n hn l.length l le_rfl

theorem strListOf_map (l : List String) : strListOf (l.map Json.str) = some l := by
  induction l with
  | nil => rfl
  | cons x xs ih => simp [strListOf, ih]

theorem decodeChecksumRecord_encode (r : ChecksumRecord) :
    decodeChecksumRecord (encodeChecksumRecord r) = some r := rfl

theorem recListOf_map (m : List (String × ChecksumRecord)) :
    recListOf (m.map (fun p => (p.1, encodeChecksumRecord p.2))) = some m := by
  induction m with
  | nil => rfl
  | cons p rest ih =>
    simp [recListOf, decodeChecksumRecord_encode, ih]

theorem decodeState_encodeState (s : RunState) :
    decodeState (encodeState s) = some s := by
  obtain ⟨sa, ca, cs, ck, ls, ua, co⟩ := s
  cases ls <;> cases ua <;> cases co <;>
    simp [encodeState, decodeState, lookupField, asStrList, strListOf_map,
          decodeChecksums, recListOf_map, decodeNullableStr, decodeOptField]

theorem matchesAny_true_of (text p : String) (pats : List String)
    (hp : p ∈ pats) (hm : strHas text p = true) : matchesAny text pats = true :=
  List.any_eq_true.mpr ⟨p, hp, hm⟩

theorem applyOp_mono (now : String) (fs : String → Option (List Nat))
    (op : StoreOp) (st : RunState × Option Json) (k : String) :
    (k ∈ st.1.completed_students →
      k ∈ (applyOp now fs op st).1.completed_students) ∧
    (k ∈ st.1.completed_activities →
      k ∈ (applyOp now fs op st).1.completed_activities) := by
  cases op with
  | markStage stage =>
    simp [applyOp, mark_stage_complete, save_state]
  | markActivity a =>
    by_cases h : a ∈ st.1.completed_activities <;>
      simp [applyOp, mark_activity_complete, save_state, h] <;>
      intro hk <;> simp [hk]
  | markStudent stu act =>
    by_cases h : studentKey stu act ∈ st.1.completed_students <;>
      simp [applyOp, mark_student_complete, save_state, h] <;>
      intro hk <;> simp [hk]
  | recordChecksum path label =>
    by_cases h : computeChecksumFs fs path ≠ "" <;>
      simp [applyOp, record_file_checksum, save_state, h]
  | save =>
    simp [applyOp, save_state]

/-! ### Claim theorems -/

/-- Claim C1, counterexample: `save_state` does not follow the
write-to-temporary-path-then-rename discipline claimed by the spec; at a
concrete state its file-operation trace is not of the form
write-temp-then-rename. -/
theorem save_state_not_temp_then_rename :
    ¬ ∃ (tmp : String) (c : Json),
        saveStateOps "t1" (freshState "t0") =
          [FsOp.write tmp c, FsOp.rename tmp stateFilePath] := by
  rintro ⟨tmp, c, h⟩
  have hlen := congrArg List.length h
  simp [saveStateOps] at hlen

/-- Claim C1, amended: `save_state` persists the full state in a single
in-place write of the serialized state directly to the state-file path, with
no temporary file and no rename; the written content parses back to the full
state, but nothing protects a concurrent reader from observing a partially
written file. -/
theorem save_state_single_inplace_write (now : String) (s : RunState) :
    saveStateOps now s =
      [FsOp.write stateFilePath (encodeState { s with updated_at := some now })] ∧
    decodeState (encodeState { s with updated_at := some now }) =
      some { s with updated_at := some now } :=
  ⟨rfl, decodeState_encodeState _⟩

/-- Claim C2: when the logs directory exists, `main` exits non-zero exactly
when the failure list or the missing-output list is non-empty, and exits 0
when both are empty. -/
theorem exit_nonzero_iff_failures_or_missing
    (failures : List TaskFailure) (missing : List MissingOutput) :
    (mainExitCode true failures missing ≠ 0 ↔ failures ≠ [] ∨ missing ≠ []) ∧
    ((failures = [] ∧ missing = []) → mainExitCode true failures missing = 0) := by
  cases failures <;> cases missing <;> simp [mainExitCode]

/-- Witness for claim C2 at the empty lists. -/
theorem exit_nonzero_iff_failures_or_missing_witness :
    mainExitCode true [] [] = 0 :=
  (exit_nonzero_iff_failures_or_missing [] []).2 ⟨rfl, rfl⟩

/-- Claim C3: for every work unit, after `mark_student_complete` followed by
`save_state` and `loadState` on the written file, `is_student_complete`
returns true. -/
theorem mark_save_load_gives_complete
    (nowM nowS nowL student : String) (activity : Option String)
    (s : RunState) (file : Option Json) :
    is_student_complete student activity
      (loadState nowL
        (some (save_state nowS
          (mark_student_complete nowM student activity s file).1).2)) = true := by
  have hkey : studentKey student activity ∈
      (mark_student_complete nowM student activity s file).1.completed_students := by
    by_cases h : studentKey student activity ∈ s.completed_students <;>
      simp [mark_student_complete, save_state, h]
  simp [loadState, save_state, decodeState_encodeState, is_student_complete]
  exact hkey

/-- Claim C4: re-marking an already-marked student (or activity) is a
complete no-op on the store: the second call returns the state and file of
the first unchanged, so the completed sets have the same contents and size
as after a single call. -/
theorem mark_complete_idempotent
    (now1 now2 student activityName : String) (activity : Option String)
    (s : RunState) (file : Option Json) :
    mark_student_complete now2 student activity
        (mark_student_complete now1 student activity s file).1
        (mark_student_complete now1 student activity s file).2 =
      mark_student_complete now1 student activity s file ∧
    mark_activity_complete now2 activityName
        (mark_activity_complete now1 activityName s file).1
        (mark_activity_complete now1 activityName s file).2 =
      mark_activity_complete now1 activityName s file := by
  constructor
  · by_cases h : studentKey student activity ∈ s.completed_students <;>
      simp [mark_student_complete, save_state, h]
  · by_cases h : activityName ∈ s.completed_activities <;>
      simp [mark_activity_complete, save_state, h]

/-- Claim C5: across any sequence of store operations, membership of the
completed-students and completed-activities sets is preserved: the completed
sets only grow. -/
theorem completed_sets_monotone
    (now : String) (fs : String → Option (List Nat)) (ops : List StoreOp)
    (s : RunState) (file : Option Json) (k : String) :
    (k ∈ s.completed_students →
      k ∈ (runOps now fs ops (s, file)).1.completed_students) ∧
    (k ∈ s.completed_activities →
      k ∈ (runOps now fs ops (s, file)).1.completed_activities) := by
  induction ops generalizing s file with
  | nil => exact ⟨id, id⟩
  | cons op rest ih =>
    have hstep := applyOp_mono now fs op (s, file) k
    have hrec := ih (applyOp now fs op (s, file)).1 (applyOp now fs op (s, file)).2
    constructor
    · intro hk
      have := hrec.1 (hstep.1 hk)
      simpa [runOps] using this
    · intro hk
      have := hrec.2 (hstep.2 hk)
      simpa [runOps] using this

/-- Witness for claim C5: a concrete marked student stays marked across a
save operation. -/
theorem completed_sets_monotone_witness :
    "alice" ∈ (runOps "t1" (fun _ => none) [StoreOp.save]
      ({ freshState "t0" with completed_students := ["alice"] }, none)).1.completed_students :=
  (completed_sets_monotone "t1" (fun _ => none) [StoreOp.save]
    { freshState "t0" with completed_students := ["alice"] } none "alice").1
    (by simp)

/-- Claim C6, counterexample: the pattern set of `is_quota_error` and the
quota branch of the classifier are not the same: "resource_exhausted" is
flagged only by `is_quota_error` (the classifier files it under `other`),
while "exhausted your capacity" is classified quota/rate_limit but not
flagged by `is_quota_error`. -/
theorem quota_pattern_sets_differ :
    is_quota_error "resource_exhausted" "claude" = true ∧
    matchesAny "resource_exhausted" classifierQuotaPatterns = false ∧
    classifyTask "resource_exhausted" "" = some ErrorType.other ∧
    is_quota_error "You have exhausted your capacity" "claude" = false ∧
    classifyTask "You have exhausted your capacity" "" =
      some ErrorType.quotaRateLimit := by
  decide

/-- Claim C6, amended: the two quota detectors agree on their shared
patterns: any text matching one of "rate limit", "too many requests",
"limit reached" or "usage limit" is flagged by `is_quota_error` for every
provider and matches the quota branch of the classifier; but the full
pattern sets differ, so the agreement does not extend to all inputs. -/
theorem shared_quota_patterns_agree (text provider : String)
    (h : matchesAny text sharedQuotaPatterns = true) :
    is_quota_error text provider = true ∧
    matchesAny text classifierQuotaPatterns = true := by
  obtain ⟨p, hp, hm⟩ := List.any_eq_true.mp h
  simp only [sharedQuotaPatterns, List.mem_cons, List.not_mem_nil, or_false] at hp
  have hcommon : matchesAny text commonQuotaPatterns = true := by
    refine matchesAny_true_of text p _ ?_ hm
    rcases hp with rfl | rfl | rfl | rfl <;> simp [commonQuotaPatterns]
  have hclassifier : matchesAny text classifierQuotaPatterns = true := by
    refine matchesAny_true_of text p _ ?_ hm
    rcases hp with rfl | rfl | rfl | rfl <;> simp [classifierQuotaPatterns]
  exact ⟨by simp [is_quota_error, hcommon], hclassifier⟩

/-- Witness for the amended claim C6 at a concrete shared-pattern text. -/
theorem shared_quota_patterns_agree_witness :
    is_quota_error "Too many requests" "claude" = true ∧
    matchesAny "Too many requests" classifierQuotaPatterns = true :=
  shared_quota_patterns_agree "Too many requests" "claude" (by decide)

/-- Claim C7: on non-empty stderr, the classifier assigns the first matching
category in the priority order quota/rate_limit, timeout, network,
permission, llm_failure, with `other` as the fallback for non-matching text
outside the yolo-banner carve-out; in particular a stderr matching both a
timeout pattern and a network pattern is classified timeout. -/
theorem classifier_priority_order (stderrC stdoutC : String)
    (hne : stderrC ≠ "") :
    (matchesAny stderrC classifierQuotaPatterns = true →
      classifyTask stderrC stdoutC = some ErrorType.quotaRateLimit) ∧
    (matchesAny stderrC classifierQuotaPatterns = false →
      matchesAny stderrC timeoutPatterns = true →
      classifyTask stderrC stdoutC = some ErrorType.timeout) ∧
    (matchesAny stderrC classifierQuotaPatterns = false →
      matchesAny stderrC timeoutPatterns = false →
      matchesAny stderrC networkPatterns = true →
      classifyTask stderrC stdoutC = some ErrorType.network) ∧
    (matchesAny stderrC classifierQuotaPatterns = false →
      matchesAny stderrC timeoutPatterns = false →
      matchesAny stderrC networkPatterns = false →
      matchesAny stderrC permissionPatterns = true →
      classifyTask stderrC stdoutC = some ErrorType.permission) ∧
    (matchesAny stderrC classifierQuotaPatterns = false →
      matchesAny stderrC timeoutPatterns = false →
      matchesAny stderrC networkPatterns = false →
      matchesAny stderrC permissionPatterns = false →
      (strHas stderrC "failed" || strHas stderrC "error") = true →
      classifyTask stderrC stdoutC = some ErrorType.llmFailure) ∧
    (matchesAny stderrC classifierQuotaPatterns = false →
      matchesAny stderrC timeoutPatterns = false →
      matchesAny stderrC networkPatterns = false →
      matchesAny stderrC permissionPatterns = false →
      strHas stderrC "failed" = false →
      strHas stderrC "error" = false →
      strHas stderrC "yolo mode" = false →
      classifyTask stderrC stdoutC = some ErrorType.other) ∧
    (matchesAny stderrC classifierQuotaPatterns = false →
      matchesAny stderrC timeoutPatterns = true →
      matchesAny stderrC networkPatterns = true →
      classifyTask stderrC stdoutC = some ErrorType.timeout) := by
  refine ⟨?_, ?_, ?_, ?_, ?_, ?_, ?_⟩ <;>
    intros <;> simp [classifyTask, hne, *]

/-- Witness for claim C7: a stderr matching both a timeout and a network
pattern is classified timeout. -/
theorem classifier_priority_order_witness :
    classifyTask "timed out while opening network connection" "" =
      some ErrorType.timeout :=
  (classifier_priority_order "timed out while opening network connection" ""
    (by decide)).2.2.2.2.2.2 (by decide) (by decide) (by decide)

/-- Claim C8, counterexample: a stderr consisting solely of an auto-approval
banner without the phrase "yolo mode" — here "All actions automatically
approved", which is in the approval-banner vocabulary of the classifier,
contains neither "error" nor "failed", and matches no higher-priority
pattern — is still reported as a failure of type `other`, not suppressed. -/
theorem approval_banner_still_flagged :
    matchesAny "All actions automatically approved" approvalBannerPhrases = true ∧
    strHas "All actions automatically approved" "error" = false ∧
    strHas "All actions automatically approved" "failed" = false ∧
    matchesAny "All actions automatically approved" classifierQuotaPatterns = false ∧
    matchesAny "All actions automatically approved" timeoutPatterns = false ∧
    matchesAny "All actions automatically approved" networkPatterns = false ∧
    matchesAny "All actions automatically approved" permissionPatterns = false ∧
    classifyTask "All actions automatically approved" "" =
      some ErrorType.other := by
  decide

/-- Claim C8, amended: the no-failure carve-out applies exactly to banners
containing the phrase "yolo mode": a non-empty stderr containing "yolo mode"
(case-insensitively) with no "error" or "failed" keyword and matching no
higher-priority pattern produces no failure record. -/
theorem yolo_banner_no_failure (stderrC stdoutC : String)
    (hne : stderrC ≠ "")
    (hyolo : strHas stderrC "yolo mode" = true)
    (herr : strHas stderrC "error" = false)
    (hfail : strHas stderrC "failed" = false)
    (hq : matchesAny stderrC classifierQuotaPatterns = false)
    (ht : matchesAny stderrC timeoutPatterns = false)
    (hn : matchesAny stderrC networkPatterns = false)
    (hp : matchesAny stderrC permissionPatterns = false) :
    classifyTask stderrC stdoutC = none := by
  simp [classifyTask, hne, hyolo, herr, hfail, hq, ht, hn, hp]

/-- Witness for the amended claim C8 at a concrete yolo banner. -/
theorem yolo_banner_no_failure_witness :
    classifyTask "YOLO mode enabled" "" = none :=
  yolo_banner_no_failure "YOLO mode enabled" "" (by decide) (by decide)
    (by decide) (by decide) (by decide) (by decide) (by decide) (by decide)

/-- Claim C9: `compute_checksum` is deterministic (equal byte contents give
equal digests), the digest computed from the 4096-byte chunked read equals
the SHA-256 digest of the full content (the chunking does not affect the
result), and the zero-length file hashes to the well-known SHA-256
empty-input digest. -/
theorem compute_checksum_deterministic_and_empty :
    (∀ b1 b2 : List Nat, b1 = b2 →
      computeChecksumBytes b1 = computeChecksumBytes b2) ∧
    (∀ content : List Nat,
      computeChecksumBytes content = hexDigest (sha256Bytes content)) ∧
    computeChecksumBytes [] =
      "e3b0c44298fc1c149afbf4c8996fb92427ae41e4649b934ca495991b7852b855" := by
  refine ⟨fun b1 b2 h => by rw [h], fun content => ?_, by decide⟩
  unfold computeChecksumBytes
  rw [chunksOf_flatten 4096 (by omega)]

/-- Witness for claim C9 at a concrete byte content. -/
theorem compute_checksum_deterministic_and_empty_witness :
    computeChecksumBytes [7] = computeChecksumBytes [7] :=
  compute_checksum_deterministic_and_empty.1 [7] [7] rfl

/-- Claim C10: when the checksum computation yields the empty string (the
unreadable-file fallback), `record_file_checksum` changes nothing: the
in-memory state, the checksums map inside it, and the persisted state file
are all left exactly as they were, and no save happens. -/
theorem record_checksum_unreadable_noop
    (now : String) (fs : String → Option (List Nat)) (path label : String)
    (s : RunState) (file : Option Json)
    (h : computeChecksumFs fs path = "") :
    record_file_checksum now fs path label s file = (s, file) := by
  simp [record_file_checksum, h]

/-- Witness for claim C10 at a file system where the path is unreadable. -/
theorem record_checksum_unreadable_noop_witness :
    record_file_checksum "t1" (fun _ => none) "rubric.md" "rubric"
      (freshState "t0") none = (freshState "t0", none) :=
  record_checksum_unreadable_noop "t1" (fun _ => none) "rubric.md" "rubric"
    (freshState "t0") none rfl
